import Mathlib

/-!
Verification of `ip-dns-check.py`, a sequential DNS batch-lookup script.

The script is shallowly embedded: external effects (the DNS resolution
calls, the filesystem, the report file) are parameters of the Lean
functions, and each Lean definition mirrors the corresponding Python
function line by line.  Machine-level details that no claim touches
(timestamps, stdout progress markers) are either parameters or omitted.
-/

namespace IpDnsCheck

/-- Python truthiness of the optional `dns_server` string argument:
`None` and the empty string are falsy, every other string is truthy.
Mirrors the `if dns_server ...` / `if args.dns:` tests in the script. -/
def truthy : Option String → Bool
  | none => false
  | some s => !s.isEmpty

/-- The result triple `(hostname, ip_address, success)` produced by
`perform_dns_lookup` and consumed by `write_results`; the spec calls it
`LookupResult`. -/
structure LookupResult where
  hostname : String
  resolvedValue : String
  success : Bool
deriving DecidableEq, Repr

/-- An exception raised by the external resolution call inside the `try`
block of `perform_dns_lookup`: one constructor per `except` clause of the
source, plus `otherExc` for the final `except Exception`.  The message
string carries Python's `str(e)`. -/
inductive RaisedExc where
  | nxdomain
  | noAnswer
  | timeout
  | gaierror (msg : String)
  | otherExc (msg : String)
deriving DecidableEq, Repr

/-- Outcome of the external resolution call (`resolver.resolve(hostname, 'A')`
on the custom-server path, `socket.gethostbyname(hostname)` on the system
path): either it returns normally — `ok addr` carries the string form of the
first returned address, i.e. `str(answers[0])` resp. the string returned by
`gethostbyname` — or it raises an exception. -/
inductive CallOutcome where
  | ok (firstAddr : String)
  | raises (e : RaisedExc)
deriving DecidableEq, Repr

/-- An exception that `perform_dns_lookup` itself propagates to its caller.
When `import dns.resolver` failed, the module-level name `dns` is unbound,
so evaluating the clause `except dns.resolver.NXDOMAIN:` raises `NameError`. -/
inductive PyExc where
  | nameError (msg : String)
deriving DecidableEq, Repr

/-- Embedding of `perform_dns_lookup(hostname, dns_server)` (source lines
30-53).  `dnsAvailable` is the module flag `DNS_AVAILABLE`; `call` is the
outcome of the external resolution call the function performs (if any).
`Except.ok` is a normal return of the result triple; `Except.error` is an
exception propagating out of the function.  The `except` clauses are
evaluated in source order, and evaluating the first clause type
`dns.resolver.NXDOMAIN` when `DNS_AVAILABLE` is false raises a `NameError`
that replaces the in-flight exception. -/
def perform_dns_lookup (dnsAvailable : Bool) (hostname : String)
    (dns_server : Option String) (call : CallOutcome) : Except PyExc LookupResult :=
  let handle : RaisedExc → Except PyExc LookupResult := fun e =>
    if dnsAvailable then
      match e with
      | .nxdomain => .ok ⟨hostname, "Error: Domain does not exist", false⟩
      | .noAnswer => .ok ⟨hostname, "Error: No A record found", false⟩
      | .timeout => .ok ⟨hostname, "Error: DNS query timeout", false⟩
      | .gaierror m => .ok ⟨hostname, "Error: " ++ m, false⟩
      | .otherExc m => .ok ⟨hostname, "Unexpected error: " ++ m, false⟩
    else
      .error (.nameError "name 'dns' is not defined")
  if truthy dns_server && dnsAvailable then
    match call with
    | .ok addr => .ok ⟨hostname, addr, true⟩
    | .raises e => handle e
  else if truthy dns_server && !dnsAvailable then
    .ok ⟨hostname, "Error: dnspython not installed (required for custom DNS)", false⟩
  else
    match call with
    | .ok addr => .ok ⟨hostname, addr, true⟩
    | .raises e => handle e

/-- Characters of a string with leading and trailing whitespace removed:
the character-level embedding of Python's `str.strip()`. -/
def stripChars (cs : List Char) : List Char :=
  ((cs.dropWhile Char.isWhitespace).reverse.dropWhile Char.isWhitespace).reverse

/-- Embedding of Python's `str.strip()` (whitespace on both ends removed). -/
def pyStrip (s : String) : String := String.mk (stripChars s.data)

/-- Outcome of `open(input_source, 'r')` in `read_hostnames`: the file
opened and iterates as `lines` (each element one line of the file, line
terminator stripped away by the embedding since every use strips it), or
raised `FileNotFoundError`, or raised some other exception with message
`msg`. -/
inductive OpenResult where
  | contentLines (lines : List String)
  | notFound
  | otherError (msg : String)
deriving DecidableEq, Repr

/-- Embedding of `read_hostnames(input_source)` (source lines 56-79).
`Except.ok` is a normal return; `Except.error (code, msg)` is
`sys.exit(code)` after printing `msg` to standard error.  The list
comprehension `[line.strip() for line in f if line.strip()]` becomes a
`filterMap`. -/
def read_hostnames (input_source : String) (o : OpenResult) :
    Except (Nat × String) (List String) :=
  match o with
  | .contentLines lines =>
      .ok (lines.filterMap fun line =>
        if (pyStrip line).isEmpty then none else some (pyStrip line))
  | .notFound => .ok [input_source]
  | .otherError msg => .error (1, "Error reading input: " ++ msg)

/-- The line `"=" * 70` written before and after the report body. -/
def dividerLine : String := String.mk (List.replicate 70 '=')

/-- Embedding of the text `write_results(results, output_file, verbose,
dns_server)` (source lines 92-117) writes into the output file, as the
list of its lines; `timestamp` stands for
`datetime.now().strftime('%Y-%m-%d %H:%M:%S')`.  Each `f.write` of a
`"...\n"`-terminated string contributes one line; the bare `"\n"`
characters written after the first divider and before the second
contribute the empty lines. -/
def write_results_lines (results : List LookupResult) (timestamp : String)
    (dns_server : Option String) : List String :=
  ["DNS Lookup Results - " ++ timestamp,
   if truthy dns_server then "DNS Server: " ++ dns_server.getD ""
   else "DNS Server: System Default",
   dividerLine,
   ""]
  ++ results.map (fun r => r.hostname ++ " / " ++ r.resolvedValue)
  ++ ["",
      dividerLine,
      "Total lookups: " ++ toString results.length,
      "Successful: " ++ toString (results.countP fun r => r.success),
      "Failed: " ++ toString (results.length - (results.countP fun r => r.success))]

/-- The parsed command-line arguments (`args` in `main`): the flags
`--input`, `--output`, `--verbose` and `--dns`. -/
structure Args where
  input : String
  output : String
  verbose : Bool
  dns : Option String
deriving DecidableEq, Repr

/-- The external environment of one run: whether `import dns.resolver`
succeeded at module load, what `open(args.input)` does, the outcome of the
i-th external resolution call, and whether opening/writing the output file
succeeds (`writeErr` is the exception message when it does not). -/
structure Env where
  dnsAvailable : Bool
  openRes : OpenResult
  calls : Nat → CallOutcome
  writeOk : Bool
  writeErr : String

/-- The observable outcome of a run of `main`: a `sys.exit(code)` with the
messages printed to standard error, the list of lookup results produced,
and whether the report file was completely written; or a crash by an
exception that no handler catches (the Python interpreter then exits with
a traceback). -/
inductive RunOutcome where
  | exited (code : Nat) (stderr : List String) (results : List LookupResult)
      (outputWritten : Bool)
  | crashed (exc : PyExc) (stderr : List String) (resultsSoFar : List LookupResult)
deriving DecidableEq, Repr

/-- The lookup loop of `main` (source lines 189-196): resolve the
hostnames strictly in order, the i-th via external call `calls i`,
accumulating result triples; an exception propagating out of
`perform_dns_lookup` aborts the loop (and the run) carrying the results
accumulated so far. -/
def runLookups (dnsAvailable : Bool) (dns : Option String)
    (calls : Nat → CallOutcome) :
    List String → Nat → Except (PyExc × List LookupResult) (List LookupResult)
  | [], _ => .ok []
  | h :: rest, i =>
    match perform_dns_lookup dnsAvailable h dns (calls i) with
    | .ok r =>
      match runLookups dnsAvailable dns calls rest (i + 1) with
      | .ok rs => .ok (r :: rs)
      | .error (e, ps) => .error (e, r :: ps)
    | .error e => .error (e, [])

/-- The warning block of `main` (source lines 172-175), reached when a
truthy `-d` value passed validation but dnspython is missing; each element
is one `print(..., file=sys.stderr)` payload. -/
def warning_lines (args : Args) (env : Env) : List String :=
  if truthy args.dns && !env.dnsAvailable then
    ["Warning: dnspython library not installed.",
     "Install it with: pip install dnspython",
     "Falling back to system DNS...\n"]
  else []

/-- Embedding of `main` after the `-d` validation succeeded or was skipped
(source lines 172-203): possible warning block, read hostnames, fail fast
on an empty list, run the lookups, write the report, exit 0 iff no lookup
failed. -/
def main_rest (args : Args) (env : Env) : RunOutcome :=
  let warns := warning_lines args env
  match read_hostnames args.input env.openRes with
  | .error (code, msg) => .exited code (warns ++ [msg]) [] false
  | .ok hostnames =>
    if hostnames.isEmpty then
      .exited 1 (warns ++ ["No hostnames found to lookup"]) [] false
    else
      match runLookups env.dnsAvailable args.dns env.calls hostnames 0 with
      | .error (e, ps) => .crashed e warns ps
      | .ok results =>
        if env.writeOk then
          .exited (if (results.countP fun r => !r.success) = 0 then 0 else 1)
            warns results true
        else
          .exited 1 (warns ++ ["Error writing to output file: " ++ env.writeErr])
            results false

/-- Whether `c` is an octal digit. -/
def isOctDigit (c : Char) : Bool := '0' ≤ c && c ≤ '7'

/-- Whether `c` is a hexadecimal digit. -/
def isHexDigitB (c : Char) : Bool :=
  c.isDigit || ('a' ≤ c && c ≤ 'f') || ('A' ≤ c && c ≤ 'F')

/-- Numeric value of a digit character (decimal, octal or hexadecimal). -/
def digitVal (c : Char) : Nat :=
  if c.isDigit then c.toNat - '0'.toNat
  else if 'a' ≤ c && c ≤ 'f' then c.toNat - 'a'.toNat + 10
  else c.toNat - 'A'.toNat + 10

/-- Consume a maximal run of digits recognised by `isD`, accumulating their
value in base `base` onto `acc`; returns the value and the unconsumed rest. -/
def parseDigits (isD : Char → Bool) (base : Nat) :
    List Char → Nat → Nat × List Char
  | [], acc => (acc, [])
  | c :: cs, acc =>
    if isD c then parseDigits isD base cs (acc * base + digitVal c)
    else (acc, c :: cs)

/-- One numbers-and-dots component, i.e. `strtoul(cp, &end, 0)` as
`inet_aton` uses it: the component must start with a decimal digit (the
caller already checked `isdigit`); a leading `0x`/`0X` switches to
hexadecimal (consuming just the `0` when no hexadecimal digit follows), a
plain leading `0` to octal.  `none` when the text does not start with a
digit; otherwise the value together with the unconsumed rest. -/
def parseComponent : List Char → Option (Nat × List Char)
  | [] => none
  | c :: cs =>
    if !c.isDigit then none
    else if c = '0' then
      match cs with
      | x :: cs2 =>
        if x = 'x' || x = 'X' then
          match cs2 with
          | y :: _ =>
            if isHexDigitB y then some (parseDigits isHexDigitB 16 cs2 0)
            else some (0, x :: cs2)
          | [] => some (0, x :: cs2)
        else some (parseDigits isOctDigit 8 cs 0)
      | [] => some (0, [])
    else some (parseDigits Char.isDigit 10 (c :: cs) 0)

/-- Limit on the final component of an `inet_aton` string, indexed by the
number of dot-separated components that may still follow (`3 - stored`):
the last component fills all remaining bytes of the 32-bit address. -/
def atonMaxRem : Nat → Nat
  | 0 => 0xff
  | 1 => 0xffff
  | 2 => 0xffffff
  | _ => 0xffffffff

/-- The C-locale `isascii(c) && isspace(c)` test of the trailing-character
check in `inet_aton`: space, tab, newline, vertical tab, form feed or
carriage return (all of which are ASCII). -/
def isSpaceC (c : Char) : Bool :=
  c = ' ' || c = '\t' || c = '\n' || c = '\x0b' || c = '\x0c' || c = '\r'

/-- The parsing loop of glibc/BSD `inet_aton`, with `remaining` the number
of components that may still be stored (the source counts upward with
`pp`; `remaining = 3 - stored`): parse a component, reject values above
`0xffffffff`; at a dot, reject when three components are already stored or
the value exceeds `0xff`, otherwise store it and continue; when the
number parse stops elsewhere, the trailing check
`if (c != '\0' && (!isascii (c) || !isspace (c))) goto ret_0;` examines
only the single next character - the end of the string and an ASCII
whitespace character (everything beyond which is ignored) pass, anything
else rejects - and then the final value must be within `atonMaxRem`. -/
def aton_rem : Nat → List Char → Bool
  | remaining, cs =>
    match parseComponent cs with
    | none => false
    | some (val, rem) =>
      if 0xffffffff < val then false
      else
        match rem with
        | '.' :: rest =>
          match remaining with
          | 0 => false
          | r + 1 => if 0xff < val then false else aton_rem r rest
        | [] => decide (val ≤ atonMaxRem remaining)
        | c :: _ => isSpaceC c && decide (val ≤ atonMaxRem remaining)

/-- Embedding of `socket.inet_aton(s)` succeeding: the C `inet_aton`
numbers-and-dots parse, 1 to 4 components, run over the whole string up
to an optional trailing-whitespace tail. -/
def inet_aton_ok (s : String) : Bool := aton_rem 3 s.toList

/-- Split a character list at every dot (helper for the spec-side IPv4
predicate). -/
def splitDots : List Char → List (List Char)
  | [] => [[]]
  | c :: cs =>
    if c = '.' then [] :: splitDots cs
    else
      match splitDots cs with
      | [] => [[c]]
      | p :: ps => (c :: p) :: ps

/-- Value of a list of decimal digit characters read left to right. -/
def decValue (cs : List Char) : Nat :=
  cs.foldl (fun a c => a * 10 + (c.toNat - '0'.toNat)) 0

/-- Modelled from the spec: one octet of a dotted-quad IPv4 address - a
nonempty run of decimal digits with no superfluous leading zero, of value
at most 255. -/
def validOctet (p : List Char) : Bool :=
  !p.isEmpty && p.all Char.isDigit &&
  (p.length == 1 || !(p.headD ' ' == '0')) &&
  decValue p ≤ 255

/-- Modelled from the spec: a syntactically valid IPv4 address - exactly
four valid octets separated by dots. -/
def isValidIPv4 (s : String) : Bool :=
  match splitDots s.toList with
  | [a, b, c, d] => validOctet a && validOctet b && validOctet c && validOctet d
  | _ => false

/-- Embedding of `main` (source lines 124-203), given the parsed arguments:
validate a truthy `-d` value with `socket.inet_aton` and exit 1 on failure
before anything else is done, otherwise continue with `main_rest`. -/
def main (args : Args) (env : Env) : RunOutcome :=
  if truthy args.dns then
    if inet_aton_ok (args.dns.getD "") then main_rest args env
    else
      .exited 1 ["Error: Invalid DNS server IP address: " ++ args.dns.getD ""]
        [] false
  else main_rest args env

/-- C1: the claim that `perform_dns_lookup` never propagates an exception
fails on the code.  When `import dns.resolver` failed (`DNS_AVAILABLE`
false) and no custom server is given, a `socket.gaierror` raised by
`socket.gethostbyname` makes Python evaluate the clause
`except dns.resolver.NXDOMAIN:`, and the unbound name `dns` raises a
`NameError` that propagates to the caller instead of the documented
`(hostname, message, False)` triple. -/
theorem c1_lookup_raises_nameError :
    perform_dns_lookup false "nonexistent.example" none
        (.raises (.gaierror "[Errno -2] Name or service not known")) =
      .error (.nameError "name 'dns' is not defined") := by
  rfl

/-- C3: with a (truthy) custom DNS server and dnspython available,
`perform_dns_lookup` classifies NXDOMAIN, missing A record and timeout
into their fixed error messages, any other exception into
`Unexpected error: <message>`, each with `success = false`; and a
successful query returns the string form of the first address with
`success = true`. -/
theorem c3_custom_dns_outcomes (h s : String) (hs : s.isEmpty = false) :
    (∀ addr, perform_dns_lookup true h (some s) (.ok addr) =
      .ok ⟨h, addr, true⟩) ∧
    perform_dns_lookup true h (some s) (.raises .nxdomain) =
      .ok ⟨h, "Error: Domain does not exist", false⟩ ∧
    perform_dns_lookup true h (some s) (.raises .noAnswer) =
      .ok ⟨h, "Error: No A record found", false⟩ ∧
    perform_dns_lookup true h (some s) (.raises .timeout) =
      .ok ⟨h, "Error: DNS query timeout", false⟩ ∧
    (∀ m, perform_dns_lookup true h (some s) (.raises (.otherExc m)) =
      .ok ⟨h, "Unexpected error: " ++ m, false⟩) := by
  simp [perform_dns_lookup, truthy, hs]

/-- C3 witness at a concrete hostname, server and each outcome. -/
theorem c3_custom_dns_outcomes_witness :
    perform_dns_lookup true "example.com" (some "8.8.8.8") (.raises .nxdomain) =
      .ok ⟨"example.com", "Error: Domain does not exist", false⟩ :=
  (c3_custom_dns_outcomes "example.com" "8.8.8.8" (by rfl)).2.1

/-- C5: with a (truthy) custom DNS server but dnspython unavailable,
`perform_dns_lookup` is a hard per-lookup failure with the exact message
`Error: dnspython not installed (required for custom DNS)` - whatever the
external resolution would have done, no system fallback happens. -/
theorem c5_custom_dns_requires_dnspython (h s : String) (hs : s.isEmpty = false)
    (call : CallOutcome) :
    perform_dns_lookup false h (some s) call =
      .ok ⟨h, "Error: dnspython not installed (required for custom DNS)", false⟩ := by
  simp [perform_dns_lookup, truthy, hs]

/-- C5 witness at a concrete hostname and server. -/
theorem c5_custom_dns_requires_dnspython_witness :
    perform_dns_lookup false "example.com" (some "8.8.8.8") (.ok "1.2.3.4") =
      .ok ⟨"example.com",
        "Error: dnspython not installed (required for custom DNS)", false⟩ :=
  c5_custom_dns_requires_dnspython "example.com" "8.8.8.8" (by rfl) (.ok "1.2.3.4")

/-- C8: whenever `perform_dns_lookup` returns a triple (rather than
raising), its first component is the input hostname unchanged, on success
and on every failure path. -/
theorem c8_hostname_preserved (dA : Bool) (h : String) (ds : Option String)
    (call : CallOutcome) (r : LookupResult)
    (hr : perform_dns_lookup dA h ds call = .ok r) : r.hostname = h := by
  rcases call with addr | e
  · cases dA <;> cases htr : truthy ds <;>
      simp [perform_dns_lookup, htr] at hr <;> simp [← hr]
  · cases dA <;> cases htr : truthy ds <;> rcases e with _ | _ | _ | m | m <;>
      simp [perform_dns_lookup, htr] at hr <;> simp [← hr]

/-- C8 witness at a concrete failing lookup. -/
theorem c8_hostname_preserved_witness :
    (LookupResult.mk "example.com" "Error: Domain does not exist" false).hostname =
      "example.com" :=
  c8_hostname_preserved true "example.com" (some "8.8.8.8")
    (.raises .nxdomain) ⟨"example.com", "Error: Domain does not exist", false⟩
    (by rfl)

/-- C10: every triple `perform_dns_lookup` returns with `success = false`
has a `resolvedValue` beginning with `Error: ` or with
`Unexpected error: `. -/
theorem c10_failure_message_marked (dA : Bool) (h : String) (ds : Option String)
    (call : CallOutcome) (r : LookupResult)
    (hr : perform_dns_lookup dA h ds call = .ok r) (hf : r.success = false) :
    (∃ t, r.resolvedValue = "Error: " ++ t) ∨
    (∃ t, r.resolvedValue = "Unexpected error: " ++ t) := by
  rcases call with addr | e
  · cases dA <;> cases htr : truthy ds <;>
      simp [perform_dns_lookup, htr] at hr <;>
      simp [← hr] at hf ⊢ <;>
      exact Or.inl ⟨"dnspython not installed (required for custom DNS)", by rfl⟩
  · cases dA <;> cases htr : truthy ds <;> rcases e with _ | _ | _ | m | m <;>
      simp [perform_dns_lookup, htr] at hr <;>
      simp [← hr] at hf ⊢ <;>
      first
        | exact Or.inl ⟨"dnspython not installed (required for custom DNS)", by rfl⟩
        | exact Or.inl ⟨"Domain does not exist", by rfl⟩
        | exact Or.inl ⟨"No A record found", by rfl⟩
        | exact Or.inl ⟨"DNS query timeout", by rfl⟩

/-- C10 witness at a concrete failing lookup. -/
theorem c10_failure_message_marked_witness :
    (∃ t, (LookupResult.mk "example.com" "Error: DNS query timeout" false).resolvedValue =
      "Error: " ++ t) ∨
    (∃ t, (LookupResult.mk "example.com" "Error: DNS query timeout" false).resolvedValue =
      "Unexpected error: " ++ t) :=
  c10_failure_message_marked true "example.com" (some "8.8.8.8")
    (.raises .timeout) ⟨"example.com", "Error: DNS query timeout", false⟩
    (by rfl) (by rfl)

/-- The stripping comprehension of `read_hostnames` equals stripping every
line and then dropping the blank ones, preserving order. -/
theorem filterMap_trim_eq (lines : List String) :
    (lines.filterMap fun line =>
        if (pyStrip line).isEmpty then none else some (pyStrip line)) =
      (lines.map pyStrip).filter fun l => !l.isEmpty := by
  induction lines with
  | nil => rfl
  | cons x xs ih =>
    by_cases hx : (pyStrip x).isEmpty
    · simp [List.filterMap_cons, List.filter_cons, hx, ih]
    · simp [List.filterMap_cons, List.filter_cons, hx, ih]

/-- C4: on a file that opens, `read_hostnames` returns exactly the file's
lines each stripped of surrounding whitespace, with the blank ones
dropped, in file order; on `FileNotFoundError` it returns the one-element
list holding the input string; on any other failure it exits the process
with a non-zero code. -/
theorem c4_read_hostnames_spec (inp : String) :
    (∀ lines, read_hostnames inp (.contentLines lines) =
      .ok ((lines.map pyStrip).filter fun l => !l.isEmpty)) ∧
    read_hostnames inp .notFound = .ok [inp] ∧
    (∀ m, ∃ code msg, read_hostnames inp (.otherError m) = .error (code, msg) ∧
      code ≠ 0) := by
  refine ⟨fun lines => ?_, rfl, fun m => ⟨1, "Error reading input: " ++ m, rfl, ?_⟩⟩
  · simp [read_hostnames, filterMap_trim_eq]
  · omega

/-- C4 witness: a file of three valid lines and one blank line yields
exactly the three hostnames, in original order. -/
theorem c4_read_hostnames_spec_witness :
    read_hostnames "hosts.txt"
        (.contentLines ["alpha.example", "  beta.example", "", "gamma.example"]) =
      .ok ["alpha.example", "beta.example", "gamma.example"] := by
  have h := (c4_read_hostnames_spec "hosts.txt").1
    ["alpha.example", "  beta.example", "", "gamma.example"]
  rw [h]
  rfl

/-- C9: when the input names no existing file, `read_hostnames` returns
the argument itself, untrimmed and unfiltered, so the returned list is
never empty on that path; and the only way `read_hostnames` returns an
empty list is an opened file all of whose lines are blank. -/
theorem c9_fallback_and_empty (inp : String) (o : OpenResult) :
    (read_hostnames inp .notFound = .ok [inp] ∧
      ([inp] : List String).isEmpty = false) ∧
    (∀ l, read_hostnames inp o = .ok l → l = [] →
      ∃ lines, o = .contentLines lines ∧ ∀ x ∈ lines, (pyStrip x).isEmpty = true) := by
  refine ⟨⟨rfl, rfl⟩, fun l hl hnil => ?_⟩
  subst hnil
  cases o with
  | contentLines lines =>
    refine ⟨lines, rfl, fun x hx => ?_⟩
    simp only [read_hostnames, Except.ok.injEq] at hl
    have := List.filterMap_eq_nil_iff.mp hl x hx
    by_cases hx2 : (pyStrip x).isEmpty
    · exact hx2
    · simp [hx2] at this
  | notFound => simp [read_hostnames] at hl
  | otherError m => simp [read_hostnames] at hl

/-- C9 witness: a whitespace-only input argument still yields a one-element
hostname list. -/
theorem c9_fallback_and_empty_witness :
    read_hostnames "   " .notFound = .ok ["   "] :=
  (c9_fallback_and_empty "   " .notFound).1.1

/-- The exit-code expression of `main` is 0 exactly when no result failed. -/
theorem exit_code_zero_iff (results : List LookupResult) :
    ((if (results.countP fun r => !r.success) = 0 then (0 : Nat) else 1) = 0) ↔
      ∀ r ∈ results, r.success = true := by
  constructor
  · intro h0 r hr
    by_cases h : (results.countP fun r => !r.success) = 0
    · have := List.countP_eq_zero.mp h r hr
      simpa using this
    · simp [h] at h0
  · intro hall
    have h : (results.countP fun r => !r.success) = 0 :=
      List.countP_eq_zero.mpr fun r hr => by simp [hall r hr]
    simp [h]

/-- C2: for every run that reaches the lookup phase and completes report
writing (a `RunOutcome.exited` with `outputWritten = true`), the process
exit code is 0 iff every lookup result has `success = true`, and 1
otherwise. -/
theorem c2_exit_code_iff_all_success (args : Args) (env : Env)
    (code : Nat) (stderr : List String) (results : List LookupResult)
    (hrun : main args env = .exited code stderr results true) :
    code = 0 ↔ ∀ r ∈ results, r.success = true := by
  have hrest : main_rest args env = .exited code stderr results true →
      (code = 0 ↔ ∀ r ∈ results, r.success = true) := by
    intro h
    unfold main_rest at h
    cases hread : read_hostnames args.input env.openRes with
    | error p => rw [hread] at h; simp at h
    | ok hostnames =>
      rw [hread] at h
      by_cases hemp : hostnames.isEmpty
      · simp [hemp] at h
      · simp only [hemp, Bool.false_eq_true, if_false] at h
        cases hrl : runLookups env.dnsAvailable args.dns env.calls hostnames 0 with
        | error p => rw [hrl] at h; simp at h
        | ok results2 =>
          rw [hrl] at h
          by_cases hw : env.writeOk
          · simp only [hw, if_true] at h
            injection h with hc hs hr ho
            subst hr
            rw [← hc]
            exact exit_code_zero_iff results2
          · simp [hw] at h
  unfold main at hrun
  by_cases hd : truthy args.dns
  · simp only [hd, if_true] at hrun
    by_cases hv : inet_aton_ok (args.dns.getD "")
    · simp only [hv, if_true] at hrun
      exact hrest hrun
    · simp only [hv, Bool.false_eq_true, if_false] at hrun
      simp at hrun
  · simp only [hd, Bool.false_eq_true, if_false] at hrun
    exact hrest hrun

/-- C2 witness at a concrete run with one successful lookup. -/
theorem c2_exit_code_iff_all_success_witness :
    (0 : Nat) = 0 ↔
      ∀ r ∈ [LookupResult.mk "example.com" "93.184.216.34" true],
        r.success = true :=
  c2_exit_code_iff_all_success
    ⟨"example.com", "out.txt", false, none⟩
    ⟨true, .notFound, fun _ => .ok "93.184.216.34", true, ""⟩
    0 [] [⟨"example.com", "93.184.216.34", true⟩] (by rfl)

/-- Index into the third block of a three-block concatenated list. -/
theorem getElem?_append2 {α : Type} (A B C : List α) (k : Nat) :
    (A ++ B ++ C)[A.length + B.length + k]? = C[k]? := by
  rw [List.append_assoc]
  rw [List.getElem?_append_right (by omega)]
  have h1 : A.length + B.length + k - A.length = B.length + k := by omega
  rw [h1]
  rw [List.getElem?_append_right (by omega)]
  have h2 : B.length + k - B.length = k := by omega
  rw [h2]

/-- C7: the report has one body line per result, in list order, exactly
`<hostname> / <resolvedValue>`; a 70-character divider of `=` signs; a
footer with `Total lookups` equal to the number of results, `Successful`
equal to the number of successful results, and `Successful + Failed =
Total`; and a header line naming the DNS server used, or `System Default`
when none was given. -/
theorem c7_report_format (results : List LookupResult) (ts : String)
    (ds : Option String) :
    (∀ i r, results[i]? = some r →
      (write_results_lines results ts ds)[4 + i]? =
        some (r.hostname ++ " / " ++ r.resolvedValue)) ∧
    (write_results_lines results ts ds)[4 + results.length + 1]? =
      some dividerLine ∧
    dividerLine.length = 70 ∧ (∀ c ∈ dividerLine.data, c = '=') ∧
    (write_results_lines results ts ds)[4 + results.length + 2]? =
      some ("Total lookups: " ++ toString results.length) ∧
    (write_results_lines results ts ds)[4 + results.length + 3]? =
      some ("Successful: " ++ toString (results.countP fun r => r.success)) ∧
    (write_results_lines results ts ds)[4 + results.length + 4]? =
      some ("Failed: " ++
        toString (results.length - (results.countP fun r => r.success))) ∧
    (results.countP fun r => r.success) +
      (results.length - (results.countP fun r => r.success)) = results.length ∧
    (ds = none →
      (write_results_lines results ts ds)[1]? =
        some "DNS Server: System Default") ∧
    (∀ s, ds = some s → s.isEmpty = false →
      (write_results_lines results ts ds)[1]? = some ("DNS Server: " ++ s)) := by
  have hfoot : ∀ k : Nat, (write_results_lines results ts ds)[4 + results.length + k]? =
      (["",
        dividerLine,
        "Total lookups: " ++ toString results.length,
        "Successful: " ++ toString (results.countP fun r => r.success),
        "Failed: " ++
          toString (results.length - (results.countP fun r => r.success))] :
        List String)[k]? := by
    intro k
    unfold write_results_lines
    have h4 : (4 : Nat) + results.length + k =
        ([("DNS Lookup Results - " ++ ts),
          (if truthy ds then "DNS Server: " ++ ds.getD ""
           else "DNS Server: System Default"),
          dividerLine, ""] : List String).length +
          (results.map fun r => r.hostname ++ " / " ++ r.resolvedValue).length +
          k := by
      simp
    rw [h4, getElem?_append2]
  have hhead : (write_results_lines results ts ds)[1]? =
      some (if truthy ds then "DNS Server: " ++ ds.getD ""
            else "DNS Server: System Default") := by
    unfold write_results_lines
    rw [List.append_assoc]
    rw [List.getElem?_append_left (by simp)]
    rfl
  refine ⟨?_, ?_, by rfl, ?_, ?_, ?_, ?_, ?_, ?_, ?_⟩
  · intro i r hir
    have hi : i < results.length := by
      rcases List.getElem?_eq_some.mp hir with ⟨h, _⟩
      exact h
    unfold write_results_lines
    rw [List.append_assoc]
    rw [List.getElem?_append_right (by simp)]
    have h4 : (4 : Nat) + i -
        ([("DNS Lookup Results - " ++ ts),
          (if truthy ds then "DNS Server: " ++ ds.getD ""
           else "DNS Server: System Default"),
          dividerLine, ""] : List String).length = i := by
      simp
    rw [h4]
    rw [List.getElem?_append_left (by simpa using hi)]
    simp [hir]
  · rw [hfoot 1]
    rfl
  · intro c hc
    exact List.eq_of_mem_replicate hc
  · rw [hfoot 2]
    rfl
  · rw [hfoot 3]
    rfl
  · rw [hfoot 4]
    rfl
  · have := List.countP_le_length (fun r => r.success) (l := results)
    omega
  · intro hds
    rw [hhead]
    simp [hds, truthy]
  · intro s hds hs
    rw [hhead]
    simp [hds, truthy, hs]

/-- C7 witness at a concrete one-result report. -/
theorem c7_report_format_witness :
    (write_results_lines [⟨"example.com", "93.184.216.34", true⟩]
        "2024-01-01 00:00:00" none)[4 + 0]? =
      some "example.com / 93.184.216.34" := by
  have h := (c7_report_format [⟨"example.com", "93.184.216.34", true⟩]
      "2024-01-01 00:00:00" none).1 0
      ⟨"example.com", "93.184.216.34", true⟩ (by rfl)
  rw [h]
  rfl

/-- Rejoin a dot-split list of components with dots. -/
def joinDots : List (List Char) → List Char
  | [] => []
  | [p] => p
  | p :: ps => p ++ '.' :: joinDots ps

/-- A dot-split never produces the empty list of components. -/
theorem splitDots_ne_nil (cs : List Char) : splitDots cs ≠ [] := by
  cases cs with
  | nil => simp [splitDots]
  | cons c cs =>
    by_cases hc : c = '.'
    · simp [splitDots, hc]
    · simp only [splitDots, if_neg hc]
      rcases hsp : splitDots cs with _ | ⟨p, ps⟩ <;> simp

/-- Joining the dot-split of a character list restores it. -/
theorem joinDots_splitDots (cs : List Char) : joinDots (splitDots cs) = cs := by
  induction cs with
  | nil => rfl
  | cons c cs ih =>
    by_cases hc : c = '.'
    · subst hc
      simp only [splitDots, if_pos rfl]
      rcases hsp : splitDots cs with _ | ⟨p, ps⟩
      · exact absurd hsp (splitDots_ne_nil cs)
      · rw [hsp] at ih
        rcases ps with _ | ⟨q, qs⟩
        · simp only [joinDots] at ih ⊢
          simp [ih]
        · simp only [joinDots] at ih ⊢
          simp [ih]
    · simp only [splitDots, if_neg hc]
      rcases hsp : splitDots cs with _ | ⟨p, ps⟩
      · exact absurd hsp (splitDots_ne_nil cs)
      · rw [hsp] at ih
        rcases ps with _ | ⟨q, qs⟩
        · simp only [joinDots] at ih ⊢
          simp [ih]
        · simp only [joinDots] at ih ⊢
          simp [ih]

/-- Value of a decimal digit as `digitVal` computes it. -/
theorem digitVal_of_isDigit (c : Char) (hc : c.isDigit = true) :
    digitVal c = c.toNat - '0'.toNat := by
  simp [digitVal, hc]

/-- A maximal decimal-digit run parses up to the first non-digit,
accumulating the base-10 value. -/
theorem parseDigits_dec_append (p rest : List Char) (acc : Nat)
    (hp : ∀ c ∈ p, c.isDigit = true)
    (hrest : ∀ c ∈ rest.head?, c.isDigit = false) :
    parseDigits Char.isDigit 10 (p ++ rest) acc =
      (p.foldl (fun a ch => a * 10 + (ch.toNat - '0'.toNat)) acc, rest) := by
  induction p generalizing acc with
  | nil =>
    cases rest with
    | nil => rfl
    | cons c cs =>
      have hc : c.isDigit = false := hrest c (by rfl)
      simp [parseDigits, hc]
  | cons x xs ih =>
    have hx : x.isDigit = true := hp x (by simp)
    simp only [List.cons_append, parseDigits, hx, if_true, List.foldl_cons]
    rw [digitVal_of_isDigit x hx]
    exact ih _ fun c hc => hp c (List.mem_cons_of_mem x hc)

/-- A valid octet followed by a dot or the end of the string parses as one
component with its decimal value. -/
theorem parseComponent_validOctet (p rest : List Char)
    (hv : validOctet p = true)
    (hrest : rest = [] ∨ ∃ cs, rest = '.' :: cs) :
    parseComponent (p ++ rest) = some (decValue p, rest) := by
  have hrest2 : ∀ c ∈ rest.head?, c.isDigit = false := by
    rcases hrest with h | ⟨cs2, h⟩ <;> subst h <;> simp
  simp only [validOctet, Bool.and_eq_true, decide_eq_true_eq] at hv
  obtain ⟨⟨⟨hne, hall⟩, hlead⟩, _hle⟩ := hv
  have hall2 : ∀ ch ∈ p, ch.isDigit = true := by
    intro ch hch
    exact List.all_eq_true.mp hall ch hch
  rcases p with _ | ⟨c, cs⟩
  · simp at hne
  · have hc : c.isDigit = true := hall2 c (by simp)
    by_cases hc0 : c = '0'
    · subst hc0
      rcases cs with _ | ⟨y, ys⟩
      · rcases hrest with h | ⟨cs2, h⟩ <;> subst h
        · simp [parseComponent]
          rfl
        · simp [parseComponent, parseDigits, isOctDigit]
          rfl
      · exfalso
        simp [List.headD] at hlead
    · have hkey := parseDigits_dec_append (c :: cs) rest 0 hall2 hrest2
      simp only [List.cons_append, parseComponent, hc, Bool.not_true,
        Bool.false_eq_true, if_false, if_neg hc0]
      rw [← List.cons_append, hkey]
      rfl

/-- Extract the value bound of a valid octet. -/
theorem validOctet_le (p : List Char) (hv : validOctet p = true) :
    decValue p ≤ 255 := by
  simp only [validOctet, Bool.and_eq_true, decide_eq_true_eq] at hv
  exact hv.2

/-- Eating one valid octet and its dot leaves the `inet_aton` loop on the
rest with one fewer component to store. -/
theorem aton_rem_step_dot (r : Nat) (p rest : List Char)
    (hv : validOctet p = true) :
    aton_rem (r + 1) (p ++ '.' :: rest) = aton_rem r rest := by
  have h1 := parseComponent_validOctet p ('.' :: rest) hv (Or.inr ⟨rest, rfl⟩)
  have hval := validOctet_le p hv
  rw [aton_rem, h1]
  have h2 : ¬(0xffffffff < decValue p) := by omega
  have h3 : ¬(0xff < decValue p) := by omega
  simp [h2, h3]

/-- A final valid octet is accepted whatever the remaining-component
budget, since every budget allows values up to at least `0xff`. -/
theorem aton_rem_final (r : Nat) (p : List Char) (hv : validOctet p = true) :
    aton_rem r p = true := by
  have h1 := parseComponent_validOctet p [] hv (Or.inl rfl)
  rw [List.append_nil] at h1
  have hval := validOctet_le p hv
  rw [aton_rem, h1]
  have h2 : ¬(0xffffffff < decValue p) := by omega
  have h3 : decValue p ≤ atonMaxRem r := by
    rcases r with _ | _ | _ | n <;> simp [atonMaxRem] <;> omega
  simp [h2, h3]

/-- Acceptance of a string whose dot-split is four valid octets. -/
theorem inet_aton_of_four_octets (t : String) (a b c d : List Char)
    (hsp : splitDots t.toList = [a, b, c, d])
    (ha : validOctet a = true) (hb : validOctet b = true)
    (hc : validOctet c = true) (hd : validOctet d = true) :
    inet_aton_ok t = true := by
  have hjoin := joinDots_splitDots t.toList
  rw [hsp] at hjoin
  simp only [joinDots, List.append_assoc] at hjoin
  unfold inet_aton_ok
  rw [← hjoin]
  have s1 : aton_rem 3 (a ++ '.' :: (b ++ '.' :: (c ++ '.' :: d))) =
      aton_rem 2 (b ++ '.' :: (c ++ '.' :: d)) := aton_rem_step_dot 2 a _ ha
  have s2 : aton_rem 2 (b ++ '.' :: (c ++ '.' :: d)) =
      aton_rem 1 (c ++ '.' :: d) := aton_rem_step_dot 1 b _ hb
  have s3 : aton_rem 1 (c ++ '.' :: d) = aton_rem 0 d :=
    aton_rem_step_dot 0 c _ hc
  rw [s1, s2, s3]
  exact aton_rem_final 0 d hd

/-- Every syntactically valid dotted-quad IPv4 address is accepted by
`inet_aton`: its numbers-and-dots grammar is a superset of dotted-quad
notation. -/
theorem isValidIPv4_inet_aton (t : String) (h : isValidIPv4 t = true) :
    inet_aton_ok t = true := by
  unfold isValidIPv4 at h
  rcases hsp : splitDots t.toList with _ | ⟨a, _ | ⟨b, _ | ⟨c, _ | ⟨d, _ | ⟨e, l⟩⟩⟩⟩⟩ <;>
    rw [hsp] at h
  · exact absurd h Bool.false_ne_true
  · exact absurd h Bool.false_ne_true
  · exact absurd h Bool.false_ne_true
  · exact absurd h Bool.false_ne_true
  · have h4 : (validOctet a && validOctet b && validOctet c && validOctet d) = true := h
    simp only [Bool.and_eq_true] at h4
    obtain ⟨⟨⟨ha, hb⟩, hc⟩, hd⟩ := h4
    exact inet_aton_of_four_octets t a b c d hsp ha hb hc hd
  · exact absurd h Bool.false_ne_true

/-- C6 (amended): with a truthy `-d` value, `main` proceeds past validation
iff `socket.inet_aton` accepts the value; a rejected value (such as
`999.999.999.999`) is fatal with a descriptive standard-error message and
exit code 1, before any lookup and with no output written; `inet_aton`
acceptance tolerates a trailing ASCII whitespace tail (the historic
leniency, e.g. `8.8.8.8 `) and is a superset of dotted-quad IPv4
validity. -/
theorem c6_dns_validation_amended (args : Args) (env : Env) (s : String)
    (h1 : args.dns = some s) (h2 : s.isEmpty = false) :
    (inet_aton_ok s = false →
      main args env =
        .exited 1 ["Error: Invalid DNS server IP address: " ++ s] [] false) ∧
    (inet_aton_ok s = true → main args env = main_rest args env) ∧
    inet_aton_ok "999.999.999.999" = false ∧
    inet_aton_ok "8.8.8.8 " = true ∧
    (∀ t, isValidIPv4 t = true → inet_aton_ok t = true) := by
  refine ⟨fun hbad => ?_, fun hgood => ?_, by rfl, by rfl,
    fun t ht => isValidIPv4_inet_aton t ht⟩
  · simp [main, truthy, h1, h2, hbad]
  · simp [main, truthy, h1, h2, hgood]

/-- C6 counterexample: the value `1.2.3` is not a syntactically valid
IPv4 address, yet the driver accepts it and runs to a successful exit -
`inet_aton` also parses shorter numbers-and-dots forms, so acceptance is
not equivalent to IPv4 validity. -/
theorem c6_counterexample_accepts_non_ipv4 :
    isValidIPv4 "1.2.3" = false ∧
    main ⟨"example.com", "out.txt", false, some "1.2.3"⟩
        ⟨true, .notFound, fun _ => .ok "9.9.9.9", true, ""⟩ =
      .exited 0 [] [⟨"example.com", "9.9.9.9", true⟩] true :=
  ⟨rfl, rfl⟩

/-- C6 witness: the invalid value `999.999.999.999` makes the driver exit
1 with the error message, no lookups and no output file. -/
theorem c6_dns_validation_amended_witness :
    main ⟨"example.com", "out.txt", false, some "999.999.999.999"⟩
        ⟨true, .notFound, fun _ => .ok "9.9.9.9", true, ""⟩ =
      .exited 1 ["Error: Invalid DNS server IP address: 999.999.999.999"]
        [] false := by
  have h := c6_dns_validation_amended
    ⟨"example.com", "out.txt", false, some "999.999.999.999"⟩
    ⟨true, .notFound, fun _ => .ok "9.9.9.9", true, ""⟩
    "999.999.999.999" rfl rfl
  have h2 := h.1 h.2.2.1
  rw [h2]
  rfl

end IpDnsCheck
